import Mathlib

/-!
Shallow embedding of `src/RevenueMovie.py` (a Streamlit movie-recommendation
app built around a `PopularityRecommender`) and proofs of the specified
properties of its logic: catalog cleaning, the ±30% popularity band filter,
the batch lock protocol of the "Show Recommendations" handler, selection
persistence with the cap of 5, and the mode statistic of the display.
Real-valued popularity figures are modelled as rationals.
-/

namespace RevenueMovie

/-- A raw CSV row restricted to the `title` and `popularity` columns;
`none` models a null (NaN) entry, as dropped by `dropna()`. -/
structure RawRecord where
  title : Option String
  popularity : Option ℚ
deriving DecidableEq, Repr

/-- A row of the cleaned catalog: both fields are present. -/
structure MovieRecord where
  title : String
  popularity : ℚ
deriving DecidableEq, Repr

/-- The cleaning in `PopularityRecommender.__init__` (lines 17-18):
`self.movies[['title','popularity']].dropna()` keeps the rows where both
columns are non-null, then `self.movies[self.movies['popularity'] > 0]`
keeps the rows with positive popularity. -/
def cleanCatalog (rows : List RawRecord) : List RawRecord :=
  (rows.filter (fun r => r.title.isSome && r.popularity.isSome)).filter
    (fun r =>
      match r.popularity with
      | some p => decide (0 < p)
      | none => false)

/-- The cleaned rows of `self.movies`, with the fields (guaranteed present
after `cleanCatalog`) extracted into `MovieRecord`s. -/
def loadCatalog (rows : List RawRecord) : List MovieRecord :=
  (cleanCatalog rows).filterMap
    (fun r =>
      match r.title, r.popularity with
      | some t, some p => some ⟨t, p⟩
      | _, _ => none)

/-- The bound pair used by `recommend_by_popularity` (lines 22-26): when no
locked range is given, `lower = popularity * 0.7` and
`upper = popularity * 1.3`; otherwise the locked range is unpacked as is.
(`not locked_range` is true in Python exactly when the argument is `None`,
since a pair is always truthy.) -/
def usedBound (popularity : ℚ) (locked_range : Option (ℚ × ℚ)) : ℚ × ℚ :=
  match locked_range with
  | none => (popularity * (7/10), popularity * (13/10))
  | some lu => lu

/-- The `candidates` filter of `recommend_by_popularity` (lines 28-30): the
catalog rows whose popularity lies in the closed interval `[b.1, b.2]`. -/
def matchesIn (movies : List MovieRecord) (b : ℚ × ℚ) : List MovieRecord :=
  movies.filter (fun m => decide (b.1 ≤ m.popularity) && decide (m.popularity ≤ b.2))

/-- `PopularityRecommender.recommend_by_popularity` (lines 20-31): returns
the in-band candidate rows together with the bound pair that was used. -/
def recommend_by_popularity (movies : List MovieRecord) (popularity : ℚ)
    (locked_range : Option (ℚ × ℚ)) : List MovieRecord × (ℚ × ℚ) :=
  (matchesIn movies (usedBound popularity locked_range), usedBound popularity locked_range)

/-- Deduplication keeping the first occurrence of each element, with `seen`
the elements already emitted. -/
def dedupFirstAux {α : Type} [DecidableEq α] (seen : List α) : List α → List α
  | [] => []
  | x :: xs => if x ∈ seen then dedupFirstAux seen xs else x :: dedupFirstAux (x :: seen) xs

/-- pandas `DataFrame.drop_duplicates()` with no subset argument: rows are
duplicates when they agree on ALL columns, and the first occurrence is kept. -/
def drop_duplicates {α : Type} [DecidableEq α] (l : List α) : List α :=
  dedupFirstAux [] l

/-- Modelled from the spec: deduplication of the batch pool "by title", the
first row of each title kept. This is the spec's wording, stated for
comparison with `drop_duplicates`; the source deduplicates by whole rows. -/
def dedupByTitleAux (seen : List String) : List MovieRecord → List MovieRecord
  | [] => []
  | r :: rs =>
    if r.title ∈ seen then dedupByTitleAux seen rs
    else r :: dedupByTitleAux (r.title :: seen) rs

/-- Modelled from the spec: see `dedupByTitleAux`. -/
def dedupByTitle (l : List MovieRecord) : List MovieRecord :=
  dedupByTitleAux [] l

/-- The `for title in st.session_state["selected_movies"]` loop of the
`show_recs` handler (lines 114-119): for each selected title, look up the
first catalog row with that title (`.iloc[0]`, which raises - modelled as
`none` - when the title is absent), call `recommend_by_popularity` with the
current locked range, store the returned range as the new lock, drop the
rows bearing the reference title itself, and append the rest to `all_recs`. -/
def showRecsLoop (movies : List MovieRecord) :
    List String → List MovieRecord → Option (ℚ × ℚ) →
    Option (List MovieRecord × Option (ℚ × ℚ))
  | [], all_recs, locked => some (all_recs, locked)
  | t :: rest, all_recs, locked =>
    match movies.find? (fun m => m.title == t) with
    | none => none
    | some row =>
      let result := recommend_by_popularity movies row.popularity locked
      showRecsLoop movies rest
        (all_recs ++ result.1.filter (fun m => !(m.title == t)))
        (some result.2)

/-- The recommendation pool built by the `show_recs` handler (lines 111-122):
the lock is reset to `none` before the loop, and afterwards the accumulated
`all_recs` is deduplicated with `drop_duplicates()` (the subsequent
`.sample(...)` only draws a random display subset from this pool). -/
def show_recs_pool (movies : List MovieRecord) (selected : List String) :
    Option (List MovieRecord) :=
  (showRecsLoop movies selected [] none).map (fun st => drop_duplicates st.1)

/-- The selection-persistence step used for both the watched movies
(lines 87-92) and the chosen recommendations (lines 143-148):
`persisted = list(set(previous).union(set(current)))`; when its length
exceeds 5 a warning is shown and the list is cut to its first 5 entries.
Python's set iteration order is unspecified; it is modelled here as
first-occurrence order of `previous ++ current`. The returned Bool records
whether the warning was surfaced. -/
def persistSelections (previous current : List String) : List String × Bool :=
  let merged := drop_duplicates (previous ++ current)
  if 5 < merged.length then (merged.take 5, true) else (merged, false)

/-- Python `statistics.mode` under the semantics its `StatisticsError`
handler in the source presupposes (the pre-3.8 library): the unique value of
maximal multiplicity when there is one, and an error - modelled as `none` -
when the data is empty or several values tie for maximal multiplicity. -/
def pyMode (l : List ℚ) : Option ℚ :=
  let uniq := drop_duplicates l
  match uniq.filter (fun x => uniq.all (fun y => decide (l.count y ≤ l.count x))) with
  | [x] => some x
  | _ => none

/-- The mode entry of the statistics display (lines 172-180): `mode(pops)`
guarded by `except StatisticsError: mode_pop = np.nan`, then
`mode_pop if not pd.isna(mode_pop) else 0`. -/
def displayedMode (pops : List ℚ) : ℚ :=
  match pyMode pops with
  | some m => m
  | none => 0

/-- The union of the per-title match lists accumulated by the batch loop:
one fixed bound `b` for every call, each reference title dropped from its
own call's matches. -/
def batchUnion (movies : List MovieRecord) (b : ℚ × ℚ) : List String → List MovieRecord
  | [] => []
  | t :: ts => (matchesIn movies b).filter (fun m => !(m.title == t)) ++ batchUnion movies b ts

theorem mem_dedupFirstAux {α : Type} [DecidableEq α] (seen l : List α) (x : α) :
    x ∈ dedupFirstAux seen l ↔ x ∈ l ∧ x ∉ seen := by
  induction l generalizing seen with
  | nil => simp [dedupFirstAux]
  | cons y ys ih =>
    by_cases hy : y ∈ seen <;> simp only [dedupFirstAux, hy, if_true, if_false, ih,
      List.mem_cons] <;> constructor
    · rintro ⟨hx, hs⟩
      exact ⟨Or.inr hx, hs⟩
    · rintro ⟨hx | hx, hs⟩
      · exact absurd (hx ▸ hy) hs
      · exact ⟨hx, hs⟩
    · rintro (rfl | ⟨hx, hs⟩)
      · exact ⟨Or.inl rfl, hy⟩
      · push_neg at hs
        exact ⟨Or.inr hx, hs.2⟩
    · rintro ⟨rfl | hx, hs⟩
      · exact Or.inl rfl
      · by_cases hxy : x = y
        · exact Or.inl hxy
        · exact Or.inr ⟨hx, by simp [hs, hxy]⟩

theorem mem_drop_duplicates {α : Type} [DecidableEq α] (l : List α) (x : α) :
    x ∈ drop_duplicates l ↔ x ∈ l := by
  simp [drop_duplicates, mem_dedupFirstAux]

/-- C1: with no locked range and a query value q > 0,
`recommend_by_popularity` returns exactly the catalog rows whose popularity
lies in `[0.7*q, 1.3*q]` (both ends included), and the bound pair
`(0.7*q, 1.3*q)`. -/
theorem recommend_no_lock_exact (movies : List MovieRecord) (q : ℚ) (_hq : 0 < q) :
    (∀ m : MovieRecord,
        m ∈ (recommend_by_popularity movies q none).1 ↔
          m ∈ movies ∧ (7/10) * q ≤ m.popularity ∧ m.popularity ≤ (13/10) * q) ∧
    (recommend_by_popularity movies q none).2 = ((7/10) * q, (13/10) * q) := by
  constructor
  · intro m
    simp [recommend_by_popularity, matchesIn, usedBound, List.mem_filter, mul_comm]
  · simp [recommend_by_popularity, usedBound, mul_comm]

/-- Witness for C1 at the one-row catalog `[("A", 10)]` and query 10. -/
theorem recommend_no_lock_exact_witness :
    ((⟨"A", 10⟩ : MovieRecord) ∈ (recommend_by_popularity [⟨"A", 10⟩] 10 none).1 ↔
      (⟨"A", 10⟩ : MovieRecord) ∈ [(⟨"A", 10⟩ : MovieRecord)] ∧
        (7/10) * 10 ≤ (10:ℚ) ∧ (10:ℚ) ≤ (13/10) * 10) ∧
    (recommend_by_popularity [⟨"A", 10⟩] 10 none).2 = ((7/10) * 10, (13/10) * 10) :=
  ⟨(recommend_no_lock_exact [⟨"A", 10⟩] 10 (by norm_num)).1 ⟨"A", 10⟩,
   (recommend_no_lock_exact [⟨"A", 10⟩] 10 (by norm_num)).2⟩

/-- C2: with a locked bound pair b, `recommend_by_popularity` returns
exactly the catalog rows with popularity in `[b.1, b.2]`, returns b itself
unchanged, and ignores the query value entirely. -/
theorem recommend_locked_exact (movies : List MovieRecord) (b : ℚ × ℚ) (q : ℚ) :
    (∀ m : MovieRecord,
        m ∈ (recommend_by_popularity movies q (some b)).1 ↔
          m ∈ movies ∧ b.1 ≤ m.popularity ∧ m.popularity ≤ b.2) ∧
    (recommend_by_popularity movies q (some b)).2 = b ∧
    (∀ q' : ℚ, recommend_by_popularity movies q (some b)
      = recommend_by_popularity movies q' (some b)) := by
  refine ⟨fun m => ?_, rfl, fun q' => rfl⟩
  simp [recommend_by_popularity, matchesIn, usedBound, List.mem_filter]

/-- C8: two calls of `recommend_by_popularity` with the same query value and
the same locked-range argument on the same catalog yield a permutation-equal
(in fact identical) match list and an identical bound. -/
theorem recommend_deterministic (movies : List MovieRecord) (q : ℚ)
    (lr : Option (ℚ × ℚ)) :
    ((recommend_by_popularity movies q lr).1).Perm
        ((recommend_by_popularity movies q lr).1) ∧
    (recommend_by_popularity movies q lr).2 = (recommend_by_popularity movies q lr).2 :=
  ⟨List.Perm.refl _, rfl⟩

/-- The concrete four-record catalog of the spec's scenario. -/
def scenarioCatalog : List MovieRecord :=
  [⟨"A", 100⟩, ⟨"B", 115⟩, ⟨"C", 130⟩, ⟨"D", 200⟩]

/-- C4 counterexample: on the scenario catalog, a call with query 100 and no
locked range does NOT yield the bounds (85, 115), and the row C at 130 is
NOT excluded: this recommender multiplies by 0.7 and 1.3, not 0.85/1.15. -/
theorem scenario_claim_refuted :
    (recommend_by_popularity scenarioCatalog 100 none).2 ≠ (85, 115) ∧
    (⟨"C", 130⟩ : MovieRecord) ∈ (recommend_by_popularity scenarioCatalog 100 none).1 := by
  norm_num [recommend_by_popularity, usedBound, matchesIn, scenarioCatalog, List.filter]

/-- C4 amended: on the scenario catalog, query 100 with no locked range
yields the bounds (70, 130) and the matches {A, B, C}; D at 200 is excluded
since 200 > 130. -/
theorem scenario_evaluated :
    recommend_by_popularity scenarioCatalog 100 none
      = ([⟨"A", 100⟩, ⟨"B", 115⟩, ⟨"C", 130⟩], (70, 130)) := by
  norm_num [recommend_by_popularity, usedBound, matchesIn, scenarioCatalog, List.filter]

/-- C5: the statistics display's mode entry is total: with a unique mode
(e.g. over [10, 10, 20]) it shows that value, and with no unique mode
(e.g. over [10, 20, 30]) it shows the sentinel 0 instead of failing. -/
theorem mode_display_total :
    displayedMode [10, 10, 20] = 10 ∧ displayedMode [10, 20, 30] = 0 := by
  constructor <;> rfl

/-- C6: after the constructor's cleaning, every kept raw row has a present
title, a present popularity, and popularity strictly greater than 0; and
every row returned by any `recommend_by_popularity` call on the stored
catalog is a row of that catalog, so dropped rows never appear in results. -/
theorem catalog_clean_invariant (rows : List RawRecord) :
    (∀ r ∈ cleanCatalog rows, r.title.isSome ∧ ∃ p, r.popularity = some p ∧ 0 < p) ∧
    (∀ m ∈ loadCatalog rows, 0 < m.popularity) ∧
    (∀ (q : ℚ) (lr : Option (ℚ × ℚ)),
      ∀ m ∈ (recommend_by_popularity (loadCatalog rows) q lr).1, m ∈ loadCatalog rows) := by
  have hclean : ∀ r ∈ cleanCatalog rows,
      r.title.isSome ∧ ∃ p, r.popularity = some p ∧ 0 < p := by
    intro r hr
    unfold cleanCatalog at hr
    rw [List.mem_filter] at hr
    obtain ⟨hr1, hr2⟩ := hr
    rw [List.mem_filter] at hr1
    obtain ⟨-, hboth⟩ := hr1
    rw [Bool.and_eq_true] at hboth
    refine ⟨hboth.1, ?_⟩
    cases hp : r.popularity with
    | none => rw [hp] at hr2; simp at hr2
    | some p =>
      rw [hp] at hr2
      simp only [decide_eq_true_eq] at hr2
      exact ⟨p, rfl, hr2⟩
  refine ⟨hclean, ?_, ?_⟩
  · intro m hm
    unfold loadCatalog at hm
    rw [List.mem_filterMap] at hm
    obtain ⟨r, hr, heq⟩ := hm
    obtain ⟨-, p, hp, hpos⟩ := hclean r hr
    cases ht : r.title with
    | none => rw [ht, hp] at heq; simp at heq
    | some t =>
      rw [ht, hp] at heq
      simp only [Option.some.injEq] at heq
      rw [← heq]
      exact hpos
  · intro q lr m hm
    exact List.mem_of_mem_filter hm

/-- Witness for C6 at a three-row raw table: one complete positive row, one
with a null popularity, one with popularity 0. -/
theorem catalog_clean_invariant_witness :
    ((⟨some "A", some 10⟩ : RawRecord) ∈
        cleanCatalog [⟨some "A", some 10⟩, ⟨some "B", none⟩, ⟨some "C", some 0⟩] →
      (some "A" : Option String).isSome ∧ ∃ p, (some 10 : Option ℚ) = some p ∧ 0 < p) ∧
    ((⟨"A", 10⟩ : MovieRecord) ∈
        loadCatalog [⟨some "A", some 10⟩, ⟨some "B", none⟩, ⟨some "C", some 0⟩] →
      (0:ℚ) < (10:ℚ)) :=
  ⟨fun h => (catalog_clean_invariant
      [⟨some "A", some 10⟩, ⟨some "B", none⟩, ⟨some "C", some 0⟩]).1 _ h,
   fun h => (catalog_clean_invariant
      [⟨some "A", some 10⟩, ⟨some "B", none⟩, ⟨some "C", some 0⟩]).2.1 _ h⟩

/-- C7: the persisted selection always has at most 5 titles, and the warning
is surfaced exactly when the merged selection exceeded 5 and was truncated. -/
theorem selection_cap (previous current : List String) :
    (persistSelections previous current).1.length ≤ 5 ∧
    ((persistSelections previous current).2 = true ↔
      5 < (drop_duplicates (previous ++ current)).length) := by
  unfold persistSelections
  by_cases h : 5 < (drop_duplicates (previous ++ current)).length <;>
    simp only [h, if_true, if_false, List.length_take]
  · simp [h]
  · simp [h]
    omega

/-- C9: every previously stored title is still in the merged selection
(unchecking a box never removes a stored title), and whenever the merged
selection fits the cap of 5 the stored result keeps every previous title;
only the cap-of-5 truncation can drop one. -/
theorem selection_never_shrinks (previous current : List String) :
    (∀ t ∈ previous, t ∈ drop_duplicates (previous ++ current)) ∧
    ((drop_duplicates (previous ++ current)).length ≤ 5 →
      ∀ t ∈ previous, t ∈ (persistSelections previous current).1) := by
  have hmem : ∀ t ∈ previous, t ∈ drop_duplicates (previous ++ current) := by
    intro t ht
    rw [mem_drop_duplicates]
    exact List.mem_append_left _ ht
  refine ⟨hmem, fun hlen t ht => ?_⟩
  unfold persistSelections
  have hnot : ¬ 5 < (drop_duplicates (previous ++ current)).length := by omega
  simp only [hnot, if_false]
  exact hmem t ht

/-- Witness for C9: with previous selection ["a"] and current checks ["b"],
the stored title "a" survives. -/
theorem selection_never_shrinks_witness :
    "a" ∈ (persistSelections ["a"] ["b"]).1 :=
  (selection_never_shrinks ["a"] ["b"]).2 (by decide) "a" (by decide)

/-- A catalog with two rows of title "X": the lookup must use the first. -/
def duplicateTitleCatalog : List MovieRecord :=
  [⟨"B", 5⟩, ⟨"X", 10⟩, ⟨"X", 99⟩]

/-- C10: the row looked up for a selected title is the FIRST catalog row
bearing that title, and the batch step for that title calls the recommender
with exactly that row's popularity: later rows with the same title never
influence the query value or the bound. -/
theorem query_from_first_matching_row (pre post : List MovieRecord)
    (r : MovieRecord) (t : String) (rest : List String)
    (hpre : ∀ x ∈ pre, ¬ x.title = t) (ht : r.title = t) :
    (pre ++ r :: post).find? (fun m => m.title == t) = some r ∧
    showRecsLoop (pre ++ r :: post) (t :: rest) [] none =
      showRecsLoop (pre ++ r :: post) rest
        ((matchesIn (pre ++ r :: post) (usedBound r.popularity none)).filter
          (fun m => !(m.title == t)))
        (some (usedBound r.popularity none)) := by
  have hfind : (pre ++ r :: post).find? (fun m => m.title == t) = some r := by
    induction pre with
    | nil => simp [List.find?, ht]
    | cons x xs ih =>
      have hx : (x.title == t) = false := by
        simp [hpre x (by simp)]
      rw [List.cons_append, List.find?_cons, hx]
      exact ih fun y hy => hpre y (by simp [hy])
  refine ⟨hfind, ?_⟩
  rw [showRecsLoop, hfind]
  rfl

/-- Witness for C10: catalog [("B",5), ("X",10), ("X",99)], title "X": the
row at popularity 10 is found, not the later duplicate at 99. -/
theorem query_from_first_matching_row_witness :
    duplicateTitleCatalog.find? (fun m => m.title == "X") = some ⟨"X", 10⟩ ∧
    showRecsLoop duplicateTitleCatalog ["X"] [] none =
      showRecsLoop duplicateTitleCatalog []
        ((matchesIn duplicateTitleCatalog (usedBound 10 none)).filter
          (fun m => !(m.title == "X")))
        (some (usedBound 10 none)) :=
  query_from_first_matching_row [⟨"B", 5⟩] [⟨"X", 99⟩] ⟨"X", 10⟩ "X" []
    (by decide) rfl

theorem showRecsLoop_locked (movies : List MovieRecord) (rest : List String) :
    ∀ (acc : List MovieRecord) (b : ℚ × ℚ),
      (∀ t ∈ rest, (movies.find? (fun m => m.title == t)).isSome) →
      showRecsLoop movies rest acc (some b) = some (acc ++ batchUnion movies b rest, some b) := by
  induction rest with
  | nil =>
    intro acc b _
    simp [showRecsLoop, batchUnion]
  | cons t ts ih =>
    intro acc b h
    obtain ⟨row, hrow⟩ := Option.isSome_iff_exists.mp (h t (List.mem_cons_self t ts))
    rw [showRecsLoop, hrow]
    simp only [recommend_by_popularity, usedBound]
    rw [ih (acc ++ (matchesIn movies b).filter (fun m => !(m.title == t)))
      b (fun t' ht' => h t' (List.mem_cons_of_mem _ ht'))]
    simp [batchUnion, List.append_assoc]

/-- C3 (amended): for a non-empty batch whose titles all occur in the
catalog, the lock is reset to none, the first call derives the bound from
t1's popularity, every later call reuses exactly that bound, each title's
rows are dropped from its own call's matches, and the final pool is the
concatenated union deduplicated by ENTIRE rows (title and popularity), the
first occurrence kept. -/
theorem show_recs_batch_protocol (movies : List MovieRecord) (t1 : String)
    (rest : List String) (r1 : MovieRecord)
    (h1 : movies.find? (fun m => m.title == t1) = some r1)
    (h : ∀ t ∈ rest, (movies.find? (fun m => m.title == t)).isSome) :
    showRecsLoop movies (t1 :: rest) [] none =
      some (batchUnion movies (usedBound r1.popularity none) (t1 :: rest),
        some (usedBound r1.popularity none)) ∧
    show_recs_pool movies (t1 :: rest) =
      some (drop_duplicates
        (batchUnion movies (usedBound r1.popularity none) (t1 :: rest))) := by
  have hloop : showRecsLoop movies (t1 :: rest) [] none =
      some (batchUnion movies (usedBound r1.popularity none) (t1 :: rest),
        some (usedBound r1.popularity none)) := by
    rw [showRecsLoop, h1]
    simp only [recommend_by_popularity]
    rw [showRecsLoop_locked movies rest _ _ h]
    simp [batchUnion]
  refine ⟨hloop, ?_⟩
  rw [show_recs_pool, hloop]
  rfl

/-- Witness for C3 on the one-row catalog [("A", 10)] and the batch ["A"]. -/
theorem show_recs_batch_protocol_witness :
    showRecsLoop [(⟨"A", 10⟩ : MovieRecord)] ["A"] [] none =
      some (batchUnion [(⟨"A", 10⟩ : MovieRecord)] (usedBound 10 none) ["A"],
        some (usedBound 10 none)) ∧
    show_recs_pool [(⟨"A", 10⟩ : MovieRecord)] ["A"] =
      some (drop_duplicates
        (batchUnion [(⟨"A", 10⟩ : MovieRecord)] (usedBound 10 none) ["A"])) :=
  show_recs_batch_protocol [⟨"A", 10⟩] "A" [] ⟨"A", 10⟩ (by decide) (by simp)

/-- A catalog in which one title ("X") labels two rows of different
popularity, so that deduplication by title and by whole row disagree. -/
def twoRowsOneTitleCatalog : List MovieRecord :=
  [⟨"S", 10⟩, ⟨"X", 10⟩, ⟨"X", 12⟩]

/-- C3 counterexample: on `twoRowsOneTitleCatalog` with the batch ["S"], the
pool the handler builds is NOT the union deduplicated by title: both rows
titled "X" (popularity 10 and 12) survive `drop_duplicates()`, which
compares whole rows, while deduplication by title would keep only one. -/
theorem batch_dedup_by_title_refuted :
    show_recs_pool twoRowsOneTitleCatalog ["S"] ≠
      (showRecsLoop twoRowsOneTitleCatalog ["S"] [] none).map
        (fun st => dedupByTitle st.1) := by
  have hxs : (("X" : String) == "S") = false := by decide
  have hss : (("S" : String) == "S") = true := by decide
  have hxx : (("X" : String) == "X") = true := by decide
  have hloop : showRecsLoop twoRowsOneTitleCatalog ["S"] [] none =
      some ([⟨"X", 10⟩, ⟨"X", 12⟩], some (7, 13)) := by
    norm_num [showRecsLoop, twoRowsOneTitleCatalog, List.find?, recommend_by_popularity,
      usedBound, matchesIn, List.filter, hxs, hss, hxx]
  rw [show_recs_pool, hloop]
  norm_num [drop_duplicates, dedupFirstAux, dedupByTitle, dedupByTitleAux, hxs, hss, hxx]

end RevenueMovie
